import Mathlib

/-!
Shallow embedding of the `no_std_logger` module of `mini_log` (src/src/lib.rs).

The Rust code keeps four parallel fixed arrays of length `MAX_LOG_ENTRIES`
(message buffers, identifiers, kind tags, and a free-slot bitmap) inside
`LoggerNS`.  Fixed arrays `[T; 1024]` are modelled as lists of their
elements; machine integers (`usize`, `c_char`) are modelled as `Nat` / `Int`
(no arithmetic is performed on them, so no wrap-around is relevant).
Rust methods that mutate `&mut self` become functions returning the new
state; `Result<T, E>` becomes `Except E T`.  `parse_logger` takes two
callbacks in Rust; the `printer` result steers control flow and is modelled
as a function argument, while the side effects of both callbacks are
modelled by an event trace that `parse_logger` returns alongside its result.
-/

set_option maxRecDepth 8000

namespace MiniLog

/-- Message buffer: the contents of a `[c_char; 1024]` array, as a list of
its `c_char` (i8) elements. -/
abbrev Msg := List Int

/-- Enum for Overflow Errors (`OverflowError` in src/src/lib.rs). -/
inductive OverflowError where
  /-- Enum type for when a Log is over its expected length. -/
  | BufferEntryOverflow : OverflowError
  /-- Enum type for when accessing beyond the length of an array. -/
  | InvalidIndex : Nat → OverflowError
deriving DecidableEq, Repr

/-- The maximum amount of Logs that can be made (`MAX_LOG_ENTRIES`). -/
def MAX_LOG_ENTRIES : Nat := 1024

/-- The maximum length for a Log (`MAX_LOG_LENGTH`). -/
def MAX_LOG_LENGTH : Nat := 1024

/-- The no_std implementation of LoggingType (`LoggingTypeNS`). -/
inductive LoggingTypeNS where
  /-- Error - for UNRECOVERABLE errors. -/
  | Error : LoggingTypeNS
  /-- Warning - used for potentially hazardous behavior logging. -/
  | Warning : LoggingTypeNS
  /-- Log - used for basic information logging. -/
  | Log : LoggingTypeNS
  /-- Marker - used for marking when a certain point in a program happens. -/
  | Marker : LoggingTypeNS
deriving DecidableEq, Repr

/-- State of a `LoggerNS`: the four parallel arrays, each of length
`MAX_LOG_ENTRIES` in any state reachable through the API. -/
structure LoggerNS where
  log : List Msg
  log_id : List Nat
  log_type : List LoggingTypeNS
  free_slots : List Bool
deriving DecidableEq, Repr

/-- Well-formedness: the four arrays have the fixed length `MAX_LOG_ENTRIES`,
as the Rust fixed-size array types guarantee. -/
def WF (l : LoggerNS) : Prop :=
  l.log.length = MAX_LOG_ENTRIES ∧ l.log_id.length = MAX_LOG_ENTRIES ∧
    l.log_type.length = MAX_LOG_ENTRIES ∧ l.free_slots.length = MAX_LOG_ENTRIES

instance (l : LoggerNS) : Decidable (WF l) := by
  unfold WF; infer_instance

/-- Creates a new `LoggerNS` with initialized data (`new_logger_ns`):
null message buffers, all ids 0, all types Marker, all slots free. -/
def new_logger_ns : LoggerNS where
  log := List.replicate MAX_LOG_ENTRIES (List.replicate MAX_LOG_LENGTH 0)
  log_id := List.replicate MAX_LOG_ENTRIES 0
  log_type := List.replicate MAX_LOG_ENTRIES LoggingTypeNS.Marker
  free_slots := List.replicate MAX_LOG_ENTRIES true

/-- The linear scan of `get_next_avaliable_slot`: index of the first `true`
entry of the free-slot bitmap (the `for i in 0..MAX_LOG_ENTRIES` loop over
`free_slots[i]`). -/
def findFirstFree : List Bool → Option Nat
  | [] => none
  | b :: bs => if b then some 0 else (findFirstFree bs).map (fun j => j + 1)

/-- Goes through the arrays and gets the first empty slot
(`get_next_avaliable_slot`), marking it occupied.  Returns the slot index
together with the updated state (the Rust method mutates `&mut self`). -/
def get_next_avaliable_slot (l : LoggerNS) : Option Nat × LoggerNS :=
  match findFirstFree l.free_slots with
  | some i => (some i, { l with free_slots := l.free_slots.set i false })
  | none => (none, l)

/-- Default marker message built by `add_marker` when `message == None`:
a `[0; 1024]` buffer whose first bytes are "Marker Place" cast to c_char. -/
def defaultMarkerMessage : Msg :=
  [77, 97, 114, 107, 101, 114, 32, 80, 108, 97, 99, 101] ++
    List.replicate (MAX_LOG_ENTRIES - 12) 0

/-- Adds a marker (`add_marker`).  Message defaults to the "Marker Place"
buffer, id defaults to 0. -/
def add_marker (l : LoggerNS) (message : Option Msg) (id : Option Nat) :
    Except OverflowError Nat × LoggerNS :=
  let message := message.getD defaultMarkerMessage
  let id := id.getD 0
  match get_next_avaliable_slot l with
  | (some slot, l1) =>
      (Except.ok slot,
        { l1 with log := l1.log.set slot message, log_id := l1.log_id.set slot id,
                  log_type := l1.log_type.set slot LoggingTypeNS.Marker })
  | (none, l1) => (Except.error OverflowError.BufferEntryOverflow, l1)

/-- Adds a Log to your Logger (`add_log`). -/
def add_log (l : LoggerNS) (message : Msg) (id : Nat) :
    Except OverflowError Nat × LoggerNS :=
  match get_next_avaliable_slot l with
  | (some slot, l1) =>
      (Except.ok slot,
        { l1 with log := l1.log.set slot message, log_id := l1.log_id.set slot id,
                  log_type := l1.log_type.set slot LoggingTypeNS.Log })
  | (none, l1) => (Except.error OverflowError.BufferEntryOverflow, l1)

/-- Adds a Warning to your Logger (`add_warning`). -/
def add_warning (l : LoggerNS) (message : Msg) (id : Nat) :
    Except OverflowError Nat × LoggerNS :=
  match get_next_avaliable_slot l with
  | (some slot, l1) =>
      (Except.ok slot,
        { l1 with log := l1.log.set slot message, log_id := l1.log_id.set slot id,
                  log_type := l1.log_type.set slot LoggingTypeNS.Warning })
  | (none, l1) => (Except.error OverflowError.BufferEntryOverflow, l1)

/-- Adds an Error to your Logger (`add_error`). -/
def add_error (l : LoggerNS) (message : Msg) (id : Nat) :
    Except OverflowError Nat × LoggerNS :=
  match get_next_avaliable_slot l with
  | (some slot, l1) =>
      (Except.ok slot,
        { l1 with log := l1.log.set slot message, log_id := l1.log_id.set slot id,
                  log_type := l1.log_type.set slot LoggingTypeNS.Error })
  | (none, l1) => (Except.error OverflowError.BufferEntryOverflow, l1)

/-- One append operation of the API: which entry point is called with
which arguments. -/
inductive AppendOp where
  | marker : Option Msg → Option Nat → AppendOp
  | log : Msg → Nat → AppendOp
  | warning : Msg → Nat → AppendOp
  | error : Msg → Nat → AppendOp
deriving DecidableEq, Repr

/-- Runs one append operation of the API on a state. -/
def applyOp (l : LoggerNS) : AppendOp → Except OverflowError Nat × LoggerNS
  | AppendOp.marker msg id => add_marker l msg id
  | AppendOp.log msg id => add_log l msg id
  | AppendOp.warning msg id => add_warning l msg id
  | AppendOp.error msg id => add_error l msg id

/-- Runs a sequence of append operations; `some` of the final state when
every operation succeeded, `none` as soon as one fails. -/
def runOps (l : LoggerNS) : List AppendOp → Option LoggerNS
  | [] => some l
  | op :: ops =>
      match applyOp l op with
      | (Except.ok _, l1) => runOps l1 ops
      | (Except.error _, _) => none

/-- Number of free (`true`) entries of the free-slot bitmap. -/
def countTrue : List Bool → Nat
  | [] => 0
  | b :: bs => (if b then 1 else 0) + countTrue bs

/-- Modelled from the spec: the source exposes no `release` operation
(§9 notes the missing release path); §4.1 requires
`release(slot_index)`: marks a slot `Free` again, making it reusable by a
later `acquire`. -/
def release (l : LoggerNS) (slot : Nat) : LoggerNS :=
  { l with free_slots := l.free_slots.set slot true }

/-- Type of the render callback `printer` of `parse_logger`:
`Fn([c_char; 1024], usize, LoggingTypeNS) -> Result<(), OverflowError>`. -/
abbrev Printer := Msg → Nat → LoggingTypeNS → Except OverflowError Unit

/-- One observable callback invocation during a `parse_logger` pass. -/
inductive CallbackEvent where
  /-- Invocation of the render callback (`printer`) with the record triple. -/
  | render : Msg → Nat → LoggingTypeNS → CallbackEvent
  /-- Invocation of the crash callback (`crasher`) with the record triple. -/
  | crash : Msg → Nat → LoggingTypeNS → CallbackEvent
deriving DecidableEq, Repr

/-- Boolean test for `Except.ok` of the render callback result. -/
def isOkb : Except OverflowError Unit → Bool
  | Except.ok _ => true
  | Except.error _ => false

/-- End of the `parse_logger` loop: `Err(InvalidIndex(id))` when some Error
record was seen (`last_error`), `Ok(())` otherwise. -/
def finish : Option Nat → Except OverflowError Unit
  | some id => Except.error (OverflowError.InvalidIndex id)
  | none => Except.ok ()

/-- Loop body of `parse_logger` over the four parallel arrays (the
`for i in 0..self.log.len()` loop, walking all arrays in step).
`last_error` is the running `Option` of the last Error record's id.
Returns the `Result` of the pass together with the trace of callback
invocations, in invocation order. -/
def parse_go (printer : Printer) :
    List Msg → List Nat → List LoggingTypeNS → List Bool → Option Nat →
      Except OverflowError Unit × List CallbackEvent
  | m :: ms, id :: ids, t :: ts, f :: fs, last_error =>
      if f then parse_go printer ms ids ts fs last_error
      else
        match t with
        | LoggingTypeNS.Error =>
            let r := parse_go printer ms ids ts fs (some id)
            (r.1, CallbackEvent.crash m id t :: r.2)
        | t =>
            match printer m id t with
            | Except.error _ =>
                (Except.error OverflowError.BufferEntryOverflow,
                  [CallbackEvent.render m id t])
            | Except.ok _ =>
                let r := parse_go printer ms ids ts fs last_error
                (r.1, CallbackEvent.render m id t :: r.2)
  | _, _, _, _, last_error => (finish last_error, [])

/-- Parses the `LoggerNS` (`parse_logger`).  Only occupied slots are
visited; Marker/Log/Warning records go to the render callback (whose error
aborts the pass with `BufferEntryOverflow`); Error records go to the crash
callback and set `last_error` to the record's id. -/
def parse_logger (l : LoggerNS) (printer : Printer) :
    Except OverflowError Unit × List CallbackEvent :=
  parse_go printer l.log l.log_id l.log_type l.free_slots none

/-- Predicate (as a Boolean): the render callback succeeds on every
occupied non-Error slot of the arrays. -/
def rendersOkB (printer : Printer) :
    List Msg → List Nat → List LoggingTypeNS → List Bool → Bool
  | m :: ms, id :: ids, t :: ts, f :: fs =>
      if f then rendersOkB printer ms ids ts fs
      else
        match t with
        | LoggingTypeNS.Error => rendersOkB printer ms ids ts fs
        | t => isOkb (printer m id t) && rendersOkB printer ms ids ts fs
  | _, _, _, _ => true

/-- Identifiers of the occupied Error-kind slots, in slot order. -/
def fatalIds : List Nat → List LoggingTypeNS → List Bool → List Nat
  | id :: ids, t :: ts, f :: fs =>
      if f then fatalIds ids ts fs
      else
        match t with
        | LoggingTypeNS.Error => id :: fatalIds ids ts fs
        | _ => fatalIds ids ts fs
  | _, _, _ => []

/-- Running `last_error` tracking of the loop: id of the last occupied
Error slot, starting from `acc`. -/
def lastFatalFrom : List Nat → List LoggingTypeNS → List Bool → Option Nat →
    Option Nat
  | id :: ids, t :: ts, f :: fs, acc =>
      if f then lastFatalFrom ids ts fs acc
      else
        match t with
        | LoggingTypeNS.Error => lastFatalFrom ids ts fs (some id)
        | _ => lastFatalFrom ids ts fs acc
  | _, _, _, acc => acc

/-- Expected event trace of a full pass in which no render call fails:
exactly one event per occupied slot, in slot order — a crash event for
Error records, a render event otherwise; free slots contribute nothing. -/
def expectedEvents : List Msg → List Nat → List LoggingTypeNS → List Bool →
    List CallbackEvent
  | m :: ms, id :: ids, t :: ts, f :: fs =>
      if f then expectedEvents ms ids ts fs
      else
        match t with
        | LoggingTypeNS.Error =>
            CallbackEvent.crash m id t :: expectedEvents ms ids ts fs
        | t => CallbackEvent.render m id t :: expectedEvents ms ids ts fs
  | _, _, _, _ => []

/-- Event trace actually produced by the loop: like `expectedEvents`, but
the trace stops right after the first render call that fails. -/
def traceOf (printer : Printer) :
    List Msg → List Nat → List LoggingTypeNS → List Bool → List CallbackEvent
  | m :: ms, id :: ids, t :: ts, f :: fs =>
      if f then traceOf printer ms ids ts fs
      else
        match t with
        | LoggingTypeNS.Error =>
            CallbackEvent.crash m id t :: traceOf printer ms ids ts fs
        | t =>
            if isOkb (printer m id t) then
              CallbackEvent.render m id t :: traceOf printer ms ids ts fs
            else [CallbackEvent.render m id t]
  | _, _, _, _ => []

/-- Index of the first occupied non-Error slot on which the render callback
fails, if any. -/
def firstRenderFail (printer : Printer) :
    List Msg → List Nat → List LoggingTypeNS → List Bool → Option Nat
  | m :: ms, id :: ids, t :: ts, f :: fs =>
      if f then (firstRenderFail printer ms ids ts fs).map (fun j => j + 1)
      else
        match t with
        | LoggingTypeNS.Error =>
            (firstRenderFail printer ms ids ts fs).map (fun j => j + 1)
        | t =>
            if isOkb (printer m id t) then
              (firstRenderFail printer ms ids ts fs).map (fun j => j + 1)
            else some 0
  | _, _, _, _ => none

/-- Boolean test for a crash event. -/
def isCrashEventB : CallbackEvent → Bool
  | CallbackEvent.crash _ _ _ => true
  | CallbackEvent.render _ _ _ => false

/-- Identifier carried by a callback event. -/
def eventId : CallbackEvent → Nat
  | CallbackEvent.render _ id _ => id
  | CallbackEvent.crash _ id _ => id

/-- Crash events a full pass performs: the occupied Error records, in slot
order. -/
def fatalEvents : List Msg → List Nat → List LoggingTypeNS → List Bool →
    List CallbackEvent
  | m :: ms, id :: ids, t :: ts, f :: fs =>
      if f then fatalEvents ms ids ts fs
      else
        match t with
        | LoggingTypeNS.Error =>
            CallbackEvent.crash m id t :: fatalEvents ms ids ts fs
        | _ => fatalEvents ms ids ts fs
  | _, _, _, _ => []

/-- Render callback that always succeeds (used for concrete scenarios). -/
def okPrinter : Printer := fun _ _ _ => Except.ok ()

/-- Render callback that always fails (used for concrete scenarios). -/
def failPrinter : Printer := fun _ _ _ =>
  Except.error OverflowError.BufferEntryOverflow

/-- All-zero message buffer of the fixed length (used for concrete
scenarios). -/
def zeroMsg : Msg := List.replicate MAX_LOG_LENGTH 0

/-- Option choice: first argument if present, else second (used to state
what `last_error` tracking computes). -/
def orOpt : Option Nat → Option Nat → Option Nat
  | some x, _ => some x
  | none, y => y

section ListLemmas

variable {α : Type _}

theorem getD_set_self (xs : List α) (i : Nat) (a d : α) (h : i < xs.length) :
    (xs.set i a).getD i d = a := by
  induction xs generalizing i with
  | nil => simp at h
  | cons x xs ih =>
    cases i with
    | zero => simp [List.set]
    | succ j => simpa [List.set] using ih j (by simpa using h)

theorem getD_set_ne (xs : List α) (i j : Nat) (a d : α) (h : i ≠ j) :
    (xs.set i a).getD j d = xs.getD j d := by
  induction xs generalizing i j with
  | nil => simp [List.set]
  | cons x xs ih =>
    cases i with
    | zero =>
      cases j with
      | zero => exact absurd rfl h
      | succ j' => simp [List.set]
    | succ i' =>
      cases j with
      | zero => simp [List.set]
      | succ j' => simpa [List.set] using ih i' j' (by omega)

theorem set_getD (xs : List α) (i : Nat) (d : α) :
    xs.set i (xs.getD i d) = xs := by
  induction xs generalizing i with
  | nil => simp
  | cons x xs ih =>
    cases i with
    | zero => simp [List.set]
    | succ j => simpa [List.set] using ih j

theorem getD_lt_length_of_ne_default (xs : List α) (j : Nat) (d : α)
    (h : xs.getD j d ≠ d) : j < xs.length := by
  by_contra hge
  rw [List.getD_eq_default] at h
  · exact h rfl
  · omega

theorem getD_congr_default (xs : List α) (j : Nat) (d d' : α)
    (h : j < xs.length) : xs.getD j d = xs.getD j d' := by
  induction xs generalizing j with
  | nil => simp at h
  | cons x xs ih =>
    cases j with
    | zero => rfl
    | succ j' => simpa using ih j' (by simpa using h)

end ListLemmas

theorem countTrue_eq_zero_iff (fs : List Bool) :
    countTrue fs = 0 ↔ ∀ b ∈ fs, b = false := by
  induction fs with
  | nil => simp [countTrue]
  | cons b bs ih =>
    cases b <;> simp [countTrue, ih]

theorem countTrue_replicate_true (n : Nat) :
    countTrue (List.replicate n true) = n := by
  induction n with
  | zero => rfl
  | succ k ih => simp [List.replicate, countTrue, ih]; omega

theorem countTrue_set_false (fs : List Bool) (i : Nat)
    (h : fs.getD i false = true) :
    countTrue (fs.set i false) + 1 = countTrue fs := by
  induction fs generalizing i with
  | nil => simp at h
  | cons b bs ih =>
    cases i with
    | zero =>
      simp only [List.getD_cons_zero] at h
      subst h
      simp [List.set, countTrue]
      omega
    | succ j =>
      simp only [List.getD_cons_succ] at h
      have := ih j h
      simp [List.set, countTrue]
      omega

theorem findFirstFree_none_iff (fs : List Bool) :
    findFirstFree fs = none ↔ ∀ b ∈ fs, b = false := by
  induction fs with
  | nil => simp [findFirstFree]
  | cons b bs ih =>
    cases b <;> simp [findFirstFree, ih]

theorem findFirstFree_lowest (fs : List Bool) (i : Nat)
    (h : findFirstFree fs = some i) :
    fs.getD i false = true ∧ ∀ j, j < i → fs.getD j false = false := by
  induction fs generalizing i with
  | nil => simp [findFirstFree] at h
  | cons b bs ih =>
    cases b with
    | true =>
      simp [findFirstFree] at h
      subst h
      exact ⟨rfl, fun j hj => by omega⟩
    | false =>
      simp [findFirstFree, Option.map_eq_some'] at h
      obtain ⟨j, hj, rfl⟩ := h
      obtain ⟨h1, h2⟩ := ih j hj
      refine ⟨by simpa using h1, ?_⟩
      intro k hk
      cases k with
      | zero => rfl
      | succ k' => simpa using h2 k' (by omega)

theorem findFirstFree_lt_length (fs : List Bool) (i : Nat)
    (h : findFirstFree fs = some i) : i < fs.length := by
  have h1 := (findFirstFree_lowest fs i h).1
  exact getD_lt_length_of_ne_default fs i false (by rw [h1]; simp)

theorem applyOp_of_none (l : LoggerNS) (op : AppendOp)
    (h : findFirstFree l.free_slots = none) :
    applyOp l op = (Except.error OverflowError.BufferEntryOverflow, l) := by
  cases op <;>
    simp [applyOp, add_marker, add_log, add_warning, add_error,
      get_next_avaliable_slot, h]

theorem applyOp_of_some (l : LoggerNS) (op : AppendOp) (i : Nat)
    (h : findFirstFree l.free_slots = some i) :
    ∃ msg id t, applyOp l op =
      (Except.ok i,
        ⟨l.log.set i msg, l.log_id.set i id, l.log_type.set i t,
          l.free_slots.set i false⟩) := by
  cases op with
  | marker msg id =>
      exact ⟨msg.getD defaultMarkerMessage, id.getD 0, LoggingTypeNS.Marker,
        by simp [applyOp, add_marker, get_next_avaliable_slot, h]⟩
  | log msg id =>
      exact ⟨msg, id, LoggingTypeNS.Log, by
        simp [applyOp, add_log, get_next_avaliable_slot, h]⟩
  | warning msg id =>
      exact ⟨msg, id, LoggingTypeNS.Warning, by
        simp [applyOp, add_warning, get_next_avaliable_slot, h]⟩
  | error msg id =>
      exact ⟨msg, id, LoggingTypeNS.Error, by
        simp [applyOp, add_error, get_next_avaliable_slot, h]⟩

theorem findFirstFree_isSome_of_countTrue_ne_zero (fs : List Bool)
    (h : countTrue fs ≠ 0) : ∃ i, findFirstFree fs = some i := by
  cases hf : findFirstFree fs with
  | none =>
      exact absurd ((countTrue_eq_zero_iff fs).mpr
        ((findFirstFree_none_iff fs).mp hf)) h
  | some i => exact ⟨i, rfl⟩

theorem runOps_success (ops : List AppendOp) :
    ∀ l : LoggerNS, ops.length ≤ countTrue l.free_slots →
      ∃ l', runOps l ops = some l' ∧
        countTrue l'.free_slots + ops.length = countTrue l.free_slots := by
  induction ops with
  | nil => intro l _; exact ⟨l, rfl, by simp [runOps]⟩
  | cons op ops ih =>
    intro l h
    have hne : countTrue l.free_slots ≠ 0 := by
      simp only [List.length_cons] at h; omega
    obtain ⟨i, hi⟩ := findFirstFree_isSome_of_countTrue_ne_zero _ hne
    obtain ⟨msg, id, t, happ⟩ := applyOp_of_some l op i hi
    have htrue : l.free_slots.getD i false = true :=
      (findFirstFree_lowest _ _ hi).1
    have hcount := countTrue_set_false l.free_slots i htrue
    have hlen : ops.length ≤
        countTrue ((⟨l.log.set i msg, l.log_id.set i id, l.log_type.set i t,
          l.free_slots.set i false⟩ : LoggerNS)).free_slots := by
      simp only [List.length_cons] at h
      show ops.length ≤ countTrue (l.free_slots.set i false)
      omega
    obtain ⟨l', hrun, hcnt⟩ := ih _ hlen
    refine ⟨l', ?_, ?_⟩
    · simp [runOps, happ, hrun]
    · simp only [List.length_cons]
      have : countTrue (l.free_slots.set i false) =
          countTrue l.free_slots - 1 := by omega
      simp only [LoggerNS.free_slots] at hcnt
      omega

/-- C1: after exactly `MAX_LOG_ENTRIES` (1024) successful append operations
(any mix of the four entry points) with no release, every further append
operation returns `BufferEntryOverflow` instead of a slot index. -/
theorem c1_capacity_invariant (ops : List AppendOp)
    (h : ops.length = MAX_LOG_ENTRIES) :
    ∃ l', runOps new_logger_ns ops = some l' ∧
      ∀ op : AppendOp, (applyOp l' op).1 =
        Except.error OverflowError.BufferEntryOverflow := by
  have hcnt : countTrue new_logger_ns.free_slots = MAX_LOG_ENTRIES :=
    countTrue_replicate_true MAX_LOG_ENTRIES
  obtain ⟨l', hrun, hc⟩ := runOps_success ops new_logger_ns (by omega)
  refine ⟨l', hrun, fun op => ?_⟩
  have hzero : countTrue l'.free_slots = 0 := by omega
  have hnone : findFirstFree l'.free_slots = none :=
    (findFirstFree_none_iff _).mpr ((countTrue_eq_zero_iff _).mp hzero)
  rw [applyOp_of_none l' op hnone]

/-- Witness for C1 at 1024 copies of an `add_log` call. -/
theorem c1_capacity_invariant_witness :
    (List.replicate MAX_LOG_ENTRIES (AppendOp.log zeroMsg 0)).length =
        MAX_LOG_ENTRIES ∧
      ∃ l', runOps new_logger_ns
          (List.replicate MAX_LOG_ENTRIES (AppendOp.log zeroMsg 0)) =
            some l' ∧
        ∀ op : AppendOp, (applyOp l' op).1 =
          Except.error OverflowError.BufferEntryOverflow :=
  ⟨by simp, c1_capacity_invariant _ (by simp)⟩

/-- C6: when every slot is occupied, each of the four append entry points
fails with `BufferEntryOverflow` and returns the state completely
unchanged (all three record arrays and the free-slot map). -/
theorem c6_exhaustion_no_mutation (l : LoggerNS)
    (h : ∀ b ∈ l.free_slots, b = false) :
    (∀ msg id, add_marker l msg id =
        (Except.error OverflowError.BufferEntryOverflow, l)) ∧
      (∀ msg id, add_log l msg id =
        (Except.error OverflowError.BufferEntryOverflow, l)) ∧
      (∀ msg id, add_warning l msg id =
        (Except.error OverflowError.BufferEntryOverflow, l)) ∧
      (∀ msg id, add_error l msg id =
        (Except.error OverflowError.BufferEntryOverflow, l)) := by
  have hnone : findFirstFree l.free_slots = none :=
    (findFirstFree_none_iff _).mpr h
  refine ⟨fun msg id => ?_, fun msg id => ?_, fun msg id => ?_,
    fun msg id => ?_⟩ <;>
    simp [add_marker, add_log, add_warning, add_error,
      get_next_avaliable_slot, hnone]

/-- Fully occupied logger used as concrete input for witnesses. -/
def fullLogger : LoggerNS where
  log := List.replicate MAX_LOG_ENTRIES zeroMsg
  log_id := List.replicate MAX_LOG_ENTRIES 0
  log_type := List.replicate MAX_LOG_ENTRIES LoggingTypeNS.Marker
  free_slots := List.replicate MAX_LOG_ENTRIES false

/-- Witness for C6 at a fully occupied logger. -/
theorem c6_exhaustion_no_mutation_witness :
    (∀ b ∈ fullLogger.free_slots, b = false) ∧
      ((∀ msg id, add_marker fullLogger msg id =
          (Except.error OverflowError.BufferEntryOverflow, fullLogger)) ∧
        (∀ msg id, add_log fullLogger msg id =
          (Except.error OverflowError.BufferEntryOverflow, fullLogger)) ∧
        (∀ msg id, add_warning fullLogger msg id =
          (Except.error OverflowError.BufferEntryOverflow, fullLogger)) ∧
        (∀ msg id, add_error fullLogger msg id =
          (Except.error OverflowError.BufferEntryOverflow, fullLogger))) :=
  ⟨by decide, c6_exhaustion_no_mutation fullLogger (by decide)⟩

/-- C9: every append operation (successful or not) leaves the message,
identifier and kind stored at any already occupied slot unchanged, and the
slot stays occupied: records are never updated in place. -/
theorem c9_records_immutable (l : LoggerNS) (j : Nat) (op : AppendOp)
    (hocc : l.free_slots.getD j true = false) :
    ((applyOp l op).2).log.getD j zeroMsg = l.log.getD j zeroMsg ∧
      ((applyOp l op).2).log_id.getD j 0 = l.log_id.getD j 0 ∧
      ((applyOp l op).2).log_type.getD j LoggingTypeNS.Marker =
        l.log_type.getD j LoggingTypeNS.Marker ∧
      ((applyOp l op).2).free_slots.getD j true = false := by
  cases hf : findFirstFree l.free_slots with
  | none => rw [applyOp_of_none l op hf]; exact ⟨rfl, rfl, rfl, hocc⟩
  | some i =>
    obtain ⟨msg, id, t, happ⟩ := applyOp_of_some l op i hf
    have hjlt : j < l.free_slots.length :=
      getD_lt_length_of_ne_default l.free_slots j true (by rw [hocc]; simp)
    have hij : i ≠ j := by
      intro he
      subst he
      have h1 := (findFirstFree_lowest _ _ hf).1
      rw [getD_congr_default l.free_slots i false true hjlt] at h1
      rw [hocc] at h1
      cases h1
    rw [happ]
    refine ⟨?_, ?_, ?_, ?_⟩
    · exact getD_set_ne l.log i j msg zeroMsg hij
    · exact getD_set_ne l.log_id i j id 0 hij
    · exact getD_set_ne l.log_type i j t LoggingTypeNS.Marker hij
    · rw [getD_set_ne l.free_slots i j false true hij]; exact hocc

/-- Logger with exactly slot 0 occupied (by a Log record with id 5), used
as concrete input for witnesses. -/
def oneLogLogger : LoggerNS := (add_log new_logger_ns zeroMsg 5).2

/-- Witness for C9: an `add_warning` after an `add_log` leaves the record
in slot 0 unchanged. -/
theorem c9_records_immutable_witness :
    oneLogLogger.free_slots.getD 0 true = false ∧
      (((applyOp oneLogLogger (AppendOp.warning zeroMsg 9)).2).log.getD 0
            zeroMsg =
          oneLogLogger.log.getD 0 zeroMsg ∧
        ((applyOp oneLogLogger (AppendOp.warning zeroMsg 9)).2).log_id.getD
            0 0 =
          oneLogLogger.log_id.getD 0 0 ∧
        ((applyOp oneLogLogger
              (AppendOp.warning zeroMsg 9)).2).log_type.getD 0
            LoggingTypeNS.Marker =
          oneLogLogger.log_type.getD 0 LoggingTypeNS.Marker ∧
        ((applyOp oneLogLogger
            (AppendOp.warning zeroMsg 9)).2).free_slots.getD 0 true =
          false) :=
  ⟨by decide, c9_records_immutable oneLogLogger 0
    (AppendOp.warning zeroMsg 9) (by decide)⟩

theorem parse_go_eq (printer : Printer) (ms : List Msg) :
    ∀ (ids : List Nat) (ts : List LoggingTypeNS) (fs : List Bool)
      (acc : Option Nat),
      ms.length = ids.length → ms.length = ts.length →
        ms.length = fs.length →
      parse_go printer ms ids ts fs acc =
        ((if rendersOkB printer ms ids ts fs then
            finish (lastFatalFrom ids ts fs acc)
          else Except.error OverflowError.BufferEntryOverflow),
          traceOf printer ms ids ts fs) := by
  induction ms with
  | nil =>
    intro ids ts fs acc h1 h2 h3
    cases ids with
    | cons x xs => simp at h1
    | nil =>
      cases ts with
      | cons x xs => simp at h2
      | nil =>
        cases fs with
        | cons x xs => simp at h3
        | nil => simp [parse_go, rendersOkB, lastFatalFrom, traceOf]
  | cons m ms ih =>
    intro ids ts fs acc h1 h2 h3
    cases ids with
    | nil => simp at h1
    | cons id ids =>
      cases ts with
      | nil => simp at h2
      | cons t ts =>
        cases fs with
        | nil => simp at h3
        | cons f fs =>
          simp only [List.length_cons, Nat.succ.injEq] at h1 h2 h3
          have ihr := ih ids ts fs
          cases f with
          | true =>
            simpa [parse_go, rendersOkB, lastFatalFrom, traceOf] using
              ihr acc h1 h2 h3
          | false =>
            cases t with
            | Error =>
              simp [parse_go, rendersOkB, lastFatalFrom, traceOf,
                ihr (some id) h1 h2 h3]
            | Warning =>
              cases hp : printer m id LoggingTypeNS.Warning with
              | ok u =>
                simp [parse_go, rendersOkB, lastFatalFrom, traceOf, hp,
                  isOkb, ihr acc h1 h2 h3]
              | error e =>
                simp [parse_go, rendersOkB, lastFatalFrom, traceOf, hp,
                  isOkb]
            | Log =>
              cases hp : printer m id LoggingTypeNS.Log with
              | ok u =>
                simp [parse_go, rendersOkB, lastFatalFrom, traceOf, hp,
                  isOkb, ihr acc h1 h2 h3]
              | error e =>
                simp [parse_go, rendersOkB, lastFatalFrom, traceOf, hp,
                  isOkb]
            | Marker =>
              cases hp : printer m id LoggingTypeNS.Marker with
              | ok u =>
                simp [parse_go, rendersOkB, lastFatalFrom, traceOf, hp,
                  isOkb, ihr acc h1 h2 h3]
              | error e =>
                simp [parse_go, rendersOkB, lastFatalFrom, traceOf, hp,
                  isOkb]

theorem getLast?_cons_exists (a : Nat) (L : List Nat) :
    ∃ c, (a :: L).getLast? = some c := by
  induction L generalizing a with
  | nil => exact ⟨a, rfl⟩
  | cons b L ih =>
    obtain ⟨c, hc⟩ := ih b
    exact ⟨c, by rw [List.getLast?_cons_cons]; exact hc⟩

theorem getLast?_cons_or (a : Nat) (L : List Nat) :
    (a :: L).getLast? = orOpt L.getLast? (some a) := by
  cases L with
  | nil => rfl
  | cons b L =>
    obtain ⟨c, hc⟩ := getLast?_cons_exists b L
    rw [List.getLast?_cons_cons, hc, orOpt]

theorem lastFatalFrom_or (ids : List Nat) :
    ∀ (ts : List LoggingTypeNS) (fs : List Bool) (acc : Option Nat),
      lastFatalFrom ids ts fs acc =
        orOpt (fatalIds ids ts fs).getLast? acc := by
  induction ids with
  | nil => intro ts fs acc; simp [lastFatalFrom, fatalIds, orOpt]
  | cons id ids ih =>
    intro ts fs acc
    cases ts with
    | nil => simp [lastFatalFrom, fatalIds, orOpt]
    | cons t ts =>
      cases fs with
      | nil => simp [lastFatalFrom, fatalIds, orOpt]
      | cons f fs =>
        cases f with
        | true => simpa [lastFatalFrom, fatalIds] using ih ts fs acc
        | false =>
          cases t with
          | Error =>
            rw [show lastFatalFrom (id :: ids) (LoggingTypeNS.Error :: ts)
                  (false :: fs) acc =
                lastFatalFrom ids ts fs (some id) from rfl]
            rw [ih ts fs (some id)]
            rw [show fatalIds (id :: ids) (LoggingTypeNS.Error :: ts)
                  (false :: fs) = id :: fatalIds ids ts fs from rfl]
            rw [getLast?_cons_or]
            cases hfl : (fatalIds ids ts fs).getLast? <;> rfl
          | Warning => simpa [lastFatalFrom, fatalIds] using ih ts fs acc
          | Log => simpa [lastFatalFrom, fatalIds] using ih ts fs acc
          | Marker => simpa [lastFatalFrom, fatalIds] using ih ts fs acc

theorem traceOf_eq_expectedEvents (printer : Printer) (ms : List Msg) :
    ∀ (ids : List Nat) (ts : List LoggingTypeNS) (fs : List Bool),
      rendersOkB printer ms ids ts fs = true →
      traceOf printer ms ids ts fs = expectedEvents ms ids ts fs := by
  induction ms with
  | nil => intro ids ts fs _; rfl
  | cons m ms ih =>
    intro ids ts fs hok
    cases ids with
    | nil => rfl
    | cons id ids =>
      cases ts with
      | nil => rfl
      | cons t ts =>
        cases fs with
        | nil => rfl
        | cons f fs =>
          cases f with
          | true =>
            simp only [rendersOkB] at hok
            simpa [traceOf, expectedEvents] using ih ids ts fs hok
          | false =>
            cases t with
            | Error =>
              simp only [rendersOkB] at hok
              simpa [traceOf, expectedEvents] using ih ids ts fs hok
            | Warning =>
              simp [rendersOkB, Bool.and_eq_true] at hok
              simp [traceOf, expectedEvents, hok.1, ih ids ts fs hok.2]
            | Log =>
              simp [rendersOkB, Bool.and_eq_true] at hok
              simp [traceOf, expectedEvents, hok.1, ih ids ts fs hok.2]
            | Marker =>
              simp [rendersOkB, Bool.and_eq_true] at hok
              simp [traceOf, expectedEvents, hok.1, ih ids ts fs hok.2]

theorem filter_crash_expectedEvents (ms : List Msg) :
    ∀ (ids : List Nat) (ts : List LoggingTypeNS) (fs : List Bool),
      (expectedEvents ms ids ts fs).filter isCrashEventB =
        fatalEvents ms ids ts fs := by
  induction ms with
  | nil => intro ids ts fs; rfl
  | cons m ms ih =>
    intro ids ts fs
    cases ids with
    | nil => rfl
    | cons id ids =>
      cases ts with
      | nil => rfl
      | cons t ts =>
        cases fs with
        | nil => rfl
        | cons f fs =>
          cases f with
          | true => simpa [expectedEvents, fatalEvents] using ih ids ts fs
          | false =>
            cases t <;>
              simpa [expectedEvents, fatalEvents, List.filter,
                isCrashEventB] using ih ids ts fs

theorem fatalEvents_eq_nil (ms : List Msg) :
    ∀ (ids : List Nat) (ts : List LoggingTypeNS) (fs : List Bool),
      fatalIds ids ts fs = [] → fatalEvents ms ids ts fs = [] := by
  induction ms with
  | nil => intro ids ts fs _; rfl
  | cons m ms ih =>
    intro ids ts fs h
    cases ids with
    | nil => rfl
    | cons id ids =>
      cases ts with
      | nil => rfl
      | cons t ts =>
        cases fs with
        | nil => rfl
        | cons f fs =>
          cases f with
          | true => simp only [fatalIds] at h
                    simpa [fatalEvents] using ih ids ts fs h
          | false =>
            cases t with
            | Error => simp [fatalIds] at h
            | Warning => simp only [fatalIds] at h
                         simpa [fatalEvents] using ih ids ts fs h
            | Log => simp only [fatalIds] at h
                     simpa [fatalEvents] using ih ids ts fs h
            | Marker => simp only [fatalIds] at h
                        simpa [fatalEvents] using ih ids ts fs h

/-- C2: when at least one occupied slot holds a Fatal (Error-kind) record
and the render callback succeeds on every occupied non-Fatal slot, `parse`
performs a crash-callback invocation for each Fatal record and returns a
failure carrying the identifier of the last (highest-index) Fatal record. -/
theorem c2_last_fatal_wins (l : LoggerNS) (printer : Printer) (lastId : Nat)
    (hwf : WF l)
    (hok : rendersOkB printer l.log l.log_id l.log_type l.free_slots = true)
    (hlast : (fatalIds l.log_id l.log_type l.free_slots).getLast? =
      some lastId) :
    (parse_logger l printer).1 =
        Except.error (OverflowError.InvalidIndex lastId) ∧
      (parse_logger l printer).2.filter isCrashEventB =
        fatalEvents l.log l.log_id l.log_type l.free_slots := by
  obtain ⟨hl1, hl2, hl3, hl4⟩ := hwf
  have hm := parse_go_eq printer l.log l.log_id l.log_type l.free_slots
    none (by omega) (by omega) (by omega)
  constructor
  · rw [parse_logger, hm]
    simp only [hok, if_true]
    rw [lastFatalFrom_or, hlast]
    rfl
  · rw [parse_logger, hm]
    simp only [hok, if_true]
    rw [traceOf_eq_expectedEvents printer _ _ _ _ hok,
      filter_crash_expectedEvents]

/-- Logger holding a Fatal record with id 10, a Log record with id 11 and
a Fatal record with id 20, in slots 0, 1, 2 (the spec's last-fatal-wins
scenario). -/
def twoFatalLogger : LoggerNS :=
  (add_error (add_log (add_error new_logger_ns zeroMsg 10).2 zeroMsg
    11).2 zeroMsg 20).2

/-- Witness for C2 at the Fatal(10), Log(11), Fatal(20) scenario: the
reported identifier is 20, not 10. -/
theorem c2_last_fatal_wins_witness :
    WF twoFatalLogger ∧
      rendersOkB okPrinter twoFatalLogger.log twoFatalLogger.log_id
          twoFatalLogger.log_type twoFatalLogger.free_slots = true ∧
      (fatalIds twoFatalLogger.log_id twoFatalLogger.log_type
          twoFatalLogger.free_slots).getLast? = some 20 ∧
      (parse_logger twoFatalLogger okPrinter).1 =
          Except.error (OverflowError.InvalidIndex 20) ∧
      (parse_logger twoFatalLogger okPrinter).2.filter isCrashEventB =
        fatalEvents twoFatalLogger.log twoFatalLogger.log_id
          twoFatalLogger.log_type twoFatalLogger.free_slots :=
  ⟨by decide, by decide, by decide,
    c2_last_fatal_wins twoFatalLogger okPrinter 20 (by decide) (by decide)
      (by decide)⟩

/-- C4: when the occupied slots hold only Marker, Log and Warning records
and the render callback succeeds on all of them, `parse` returns success,
the trace has exactly one render event per occupied slot in slot order
(free slots contribute no event), and no crash event occurs. -/
theorem c4_no_fatal_pass (l : LoggerNS) (printer : Printer)
    (hwf : WF l)
    (hok : rendersOkB printer l.log l.log_id l.log_type l.free_slots = true)
    (hnf : fatalIds l.log_id l.log_type l.free_slots = []) :
    (parse_logger l printer).1 = Except.ok () ∧
      (parse_logger l printer).2 =
        expectedEvents l.log l.log_id l.log_type l.free_slots ∧
      (parse_logger l printer).2.filter isCrashEventB = [] := by
  obtain ⟨hl1, hl2, hl3, hl4⟩ := hwf
  have hm := parse_go_eq printer l.log l.log_id l.log_type l.free_slots
    none (by omega) (by omega) (by omega)
  refine ⟨?_, ?_, ?_⟩
  · rw [parse_logger, hm]
    simp only [hok, if_true]
    rw [lastFatalFrom_or, hnf]
    rfl
  · rw [parse_logger, hm]
    exact traceOf_eq_expectedEvents printer _ _ _ _ hok
  · rw [parse_logger, hm]
    simp only
    rw [traceOf_eq_expectedEvents printer _ _ _ _ hok,
      filter_crash_expectedEvents]
    exact fatalEvents_eq_nil _ _ _ _ hnf

/-- Logger holding a Marker, a Log and a Warning record in slots 0, 1, 2. -/
def noFatalLogger : LoggerNS :=
  (add_warning (add_log (add_marker new_logger_ns none none).2 zeroMsg
    1).2 zeroMsg 2).2

/-- Witness for C4 at a Marker/Log/Warning logger with a succeeding render
callback. -/
theorem c4_no_fatal_pass_witness :
    WF noFatalLogger ∧
      rendersOkB okPrinter noFatalLogger.log noFatalLogger.log_id
          noFatalLogger.log_type noFatalLogger.free_slots = true ∧
      fatalIds noFatalLogger.log_id noFatalLogger.log_type
          noFatalLogger.free_slots = [] ∧
      (parse_logger noFatalLogger okPrinter).1 = Except.ok () ∧
      (parse_logger noFatalLogger okPrinter).2 =
        expectedEvents noFatalLogger.log noFatalLogger.log_id
          noFatalLogger.log_type noFatalLogger.free_slots ∧
      (parse_logger noFatalLogger okPrinter).2.filter isCrashEventB = [] :=
  ⟨by decide, by decide, by decide, by
    have h := c4_no_fatal_pass noFatalLogger okPrinter (by decide)
      (by decide) (by decide)
    exact ⟨h.1, h.2.1, h.2.2⟩⟩

/-- C10: whenever the render callback fails on some occupied non-Fatal
slot during the pass, `parse` returns the fixed `BufferEntryOverflow`
error — whatever error value the callback itself produced — and in
particular never reports a Fatal identifier. -/
theorem c10_render_failure_fixed_error (l : LoggerNS) (printer : Printer)
    (hwf : WF l)
    (hfail : rendersOkB printer l.log l.log_id l.log_type l.free_slots =
      false) :
    (parse_logger l printer).1 =
        Except.error OverflowError.BufferEntryOverflow ∧
      ∀ id, (parse_logger l printer).1 ≠
        Except.error (OverflowError.InvalidIndex id) := by
  obtain ⟨hl1, hl2, hl3, hl4⟩ := hwf
  have hm := parse_go_eq printer l.log l.log_id l.log_type l.free_slots
    none (by omega) (by omega) (by omega)
  rw [parse_logger, hm]
  simp [hfail]

/-- Render callback failing with its own distinctive error value, to show
the value is discarded. -/
def invalidIndexPrinter : Printer := fun _ _ _ =>
  Except.error (OverflowError.InvalidIndex 99)

/-- Witness for C10: a Fatal record in slot 0 and a render failure (with
error `InvalidIndex 99`) at the Log record in slot 1 yield the fixed
`BufferEntryOverflow`, so neither 99 nor the fatal id 10 is reported. -/
theorem c10_render_failure_fixed_error_witness :
    WF (add_log (add_error new_logger_ns zeroMsg 10).2 zeroMsg 11).2 ∧
      rendersOkB invalidIndexPrinter
          (add_log (add_error new_logger_ns zeroMsg 10).2 zeroMsg 11).2.log
          (add_log (add_error new_logger_ns zeroMsg 10).2 zeroMsg
            11).2.log_id
          (add_log (add_error new_logger_ns zeroMsg 10).2 zeroMsg
            11).2.log_type
          (add_log (add_error new_logger_ns zeroMsg 10).2 zeroMsg
            11).2.free_slots = false ∧
      (parse_logger (add_log (add_error new_logger_ns zeroMsg 10).2 zeroMsg
            11).2 invalidIndexPrinter).1 =
          Except.error OverflowError.BufferEntryOverflow ∧
      ∀ id, (parse_logger (add_log (add_error new_logger_ns zeroMsg 10).2
            zeroMsg 11).2 invalidIndexPrinter).1 ≠
        Except.error (OverflowError.InvalidIndex id) :=
  ⟨by decide, by decide, by
    have h := c10_render_failure_fixed_error
      (add_log (add_error new_logger_ns zeroMsg 10).2 zeroMsg 11).2
      invalidIndexPrinter (by decide) (by decide)
    exact ⟨h.1, h.2⟩⟩

theorem parse_go_fail_take (printer : Printer) (ms : List Msg) :
    ∀ (ids : List Nat) (ts : List LoggingTypeNS) (fs : List Bool)
      (acc : Option Nat) (i : Nat),
      firstRenderFail printer ms ids ts fs = some i →
      parse_go printer ms ids ts fs acc =
        (Except.error OverflowError.BufferEntryOverflow,
          expectedEvents (ms.take (i + 1)) (ids.take (i + 1))
            (ts.take (i + 1)) (fs.take (i + 1))) := by
  induction ms with
  | nil => intro ids ts fs acc i h; simp [firstRenderFail] at h
  | cons m ms ih =>
    intro ids ts fs acc i h
    cases ids with
    | nil => simp [firstRenderFail] at h
    | cons id ids =>
      cases ts with
      | nil => simp [firstRenderFail] at h
      | cons t ts =>
        cases fs with
        | nil => simp [firstRenderFail] at h
        | cons f fs =>
          cases f with
          | true =>
            simp only [firstRenderFail, if_true, Option.map_eq_some'] at h
            obtain ⟨j, hj, rfl⟩ := h
            simp [parse_go, List.take_succ_cons, expectedEvents,
              ih ids ts fs acc j hj]
          | false =>
            cases t with
            | Error =>
              simp only [firstRenderFail] at h
              simp only [Bool.false_eq_true, if_false,
                Option.map_eq_some'] at h
              obtain ⟨j, hj, rfl⟩ := h
              simp [parse_go, List.take_succ_cons, expectedEvents,
                ih ids ts fs (some id) j hj]
            | Warning =>
              cases hp : printer m id LoggingTypeNS.Warning with
              | ok u =>
                simp [firstRenderFail, hp, isOkb,
                  Option.map_eq_some'] at h
                obtain ⟨j, hj, rfl⟩ := h
                simp [parse_go, hp, List.take_succ_cons, expectedEvents,
                  ih ids ts fs acc j hj]
              | error e =>
                simp [firstRenderFail, hp, isOkb] at h
                subst h
                simp [parse_go, hp, List.take_succ_cons, expectedEvents]
            | Log =>
              cases hp : printer m id LoggingTypeNS.Log with
              | ok u =>
                simp [firstRenderFail, hp, isOkb,
                  Option.map_eq_some'] at h
                obtain ⟨j, hj, rfl⟩ := h
                simp [parse_go, hp, List.take_succ_cons, expectedEvents,
                  ih ids ts fs acc j hj]
              | error e =>
                simp [firstRenderFail, hp, isOkb] at h
                subst h
                simp [parse_go, hp, List.take_succ_cons, expectedEvents]
            | Marker =>
              cases hp : printer m id LoggingTypeNS.Marker with
              | ok u =>
                simp [firstRenderFail, hp, isOkb,
                  Option.map_eq_some'] at h
                obtain ⟨j, hj, rfl⟩ := h
                simp [parse_go, hp, List.take_succ_cons, expectedEvents,
                  ih ids ts fs acc j hj]
              | error e =>
                simp [firstRenderFail, hp, isOkb] at h
                subst h
                simp [parse_go, hp, List.take_succ_cons, expectedEvents]

/-- C5: when the render callback first fails at occupied non-Fatal slot
`i`, the pass aborts right there: `parse` returns the render-failure error
(`BufferEntryOverflow`) and the callback trace covers only slots up to and
including `i` — no callback runs on any later slot. -/
theorem c5_render_failure_aborts (l : LoggerNS) (printer : Printer)
    (i : Nat)
    (hfirst : firstRenderFail printer l.log l.log_id l.log_type
      l.free_slots = some i) :
    (parse_logger l printer).1 =
        Except.error OverflowError.BufferEntryOverflow ∧
      (parse_logger l printer).2 =
        expectedEvents (l.log.take (i + 1)) (l.log_id.take (i + 1))
          (l.log_type.take (i + 1)) (l.free_slots.take (i + 1)) := by
  rw [parse_logger,
    parse_go_fail_take printer l.log l.log_id l.log_type l.free_slots
      none i hfirst]
  exact ⟨rfl, rfl⟩

/-- Witness for C5 at a logger whose slot 0 holds a Log record and a render
callback that always fails. -/
theorem c5_render_failure_aborts_witness :
    firstRenderFail failPrinter oneLogLogger.log oneLogLogger.log_id
        oneLogLogger.log_type oneLogLogger.free_slots = some 0 ∧
      (parse_logger oneLogLogger failPrinter).1 =
          Except.error OverflowError.BufferEntryOverflow ∧
        (parse_logger oneLogLogger failPrinter).2 =
          expectedEvents (oneLogLogger.log.take 1)
            (oneLogLogger.log_id.take 1) (oneLogLogger.log_type.take 1)
            (oneLogLogger.free_slots.take 1) :=
  ⟨by decide, c5_render_failure_aborts oneLogLogger failPrinter 0
    (by decide)⟩

/-- Logger holding Log records with identifiers 5, 6, 7 in slots 0, 1, 2
(the spec's ordering scenario). -/
def logger567 : LoggerNS :=
  (add_log (add_log (add_log new_logger_ns zeroMsg 5).2 zeroMsg 6).2
    zeroMsg 7).2

/-- C3: slot acquisition returns the lowest-index free slot (the returned
index is free and every lower index is occupied); consequently the records
with identifiers 5, 6, 7, appended in sequence, land in the ascending
slots 0, 1, 2 and `parse` invokes the callbacks on them in exactly that
order. -/
theorem c3_lowest_index_and_order (fs : List Bool) (i : Nat)
    (h : findFirstFree fs = some i) :
    (fs.getD i false = true ∧ ∀ j, j < i → fs.getD j false = false) ∧
      (add_log new_logger_ns zeroMsg 5).1 = Except.ok 0 ∧
      (add_log (add_log new_logger_ns zeroMsg 5).2 zeroMsg 6).1 =
        Except.ok 1 ∧
      (add_log (add_log (add_log new_logger_ns zeroMsg 5).2 zeroMsg 6).2
          zeroMsg 7).1 = Except.ok 2 ∧
      (parse_logger logger567 okPrinter).2.map eventId = [5, 6, 7] :=
  ⟨findFirstFree_lowest fs i h, rfl, rfl, rfl, by decide⟩

/-- Witness for C3 at the one-slot bitmap `[true]`. -/
theorem c3_lowest_index_and_order_witness :
    findFirstFree [true] = some 0 ∧
      (([true].getD 0 false = true ∧
          ∀ j, j < 0 → [true].getD j false = false) ∧
        (add_log new_logger_ns zeroMsg 5).1 = Except.ok 0 ∧
        (add_log (add_log new_logger_ns zeroMsg 5).2 zeroMsg 6).1 =
          Except.ok 1 ∧
        (add_log (add_log (add_log new_logger_ns zeroMsg 5).2 zeroMsg
            6).2 zeroMsg 7).1 = Except.ok 2 ∧
        (parse_logger logger567 okPrinter).2.map eventId = [5, 6, 7]) :=
  ⟨by decide, c3_lowest_index_and_order [true] 0 (by decide)⟩

/-- C7 (release is modelled from the spec, the source has no such
operation): acquiring the lowest free slot `i`, releasing it, and
acquiring again returns the same `i`; and appending (`add_log`) after the
release succeeds at `i` and overwrites the record stored there. -/
theorem c7_release_reuse (l : LoggerNS) (i : Nat) (hwf : WF l)
    (h : findFirstFree l.free_slots = some i) :
    (get_next_avaliable_slot l).1 = some i ∧
      (get_next_avaliable_slot
          (release (get_next_avaliable_slot l).2 i)).1 = some i ∧
      ∀ msg id,
        (add_log (release (get_next_avaliable_slot l).2 i) msg id).1 =
            Except.ok i ∧
          ((add_log (release (get_next_avaliable_slot l).2 i) msg
              id).2).log.getD i zeroMsg = msg ∧
          ((add_log (release (get_next_avaliable_slot l).2 i) msg
              id).2).log_id.getD i (id + 1) = id ∧
          ((add_log (release (get_next_avaliable_slot l).2 i) msg
              id).2).log_type.getD i LoggingTypeNS.Marker =
            LoggingTypeNS.Log := by
  obtain ⟨hl1, hl2, hl3, hl4⟩ := hwf
  have hlt : i < l.free_slots.length := findFirstFree_lt_length _ _ h
  have htrue : l.free_slots.getD i false = true :=
    (findFirstFree_lowest _ _ h).1
  have hrel : release (get_next_avaliable_slot l).2 i = l := by
    show release
      (match findFirstFree l.free_slots with
        | some j => (some j, { l with free_slots := l.free_slots.set j false })
        | none => (none, l)).2 i = l
    rw [h]
    show ({ l with
      free_slots := (l.free_slots.set i false).set i true } : LoggerNS) = l
    rw [List.set_set]
    conv_lhs => rw [show (true : Bool) = l.free_slots.getD i false from
      htrue.symm]
    rw [set_getD]
  refine ⟨?_, ?_, ?_⟩
  · simp [get_next_avaliable_slot, h]
  · rw [hrel]; simp [get_next_avaliable_slot, h]
  · intro msg id
    rw [hrel]
    have e : add_log l msg id =
        (Except.ok i,
          ⟨l.log.set i msg, l.log_id.set i id,
            l.log_type.set i LoggingTypeNS.Log,
            l.free_slots.set i false⟩) := by
      simp [add_log, get_next_avaliable_slot, h]
    rw [e]
    refine ⟨rfl, ?_, ?_, ?_⟩
    · exact getD_set_self l.log i msg zeroMsg (by omega)
    · exact getD_set_self l.log_id i id (id + 1) (by omega)
    · exact getD_set_self l.log_type i LoggingTypeNS.Log
        LoggingTypeNS.Marker (by omega)

/-- Witness for C7 at the fresh logger and slot 0. -/
theorem c7_release_reuse_witness :
    WF new_logger_ns ∧
      findFirstFree new_logger_ns.free_slots = some 0 ∧
      ((get_next_avaliable_slot new_logger_ns).1 = some 0 ∧
        (get_next_avaliable_slot
            (release (get_next_avaliable_slot new_logger_ns).2 0)).1 =
          some 0 ∧
        ∀ msg id,
          (add_log (release (get_next_avaliable_slot new_logger_ns).2 0)
              msg id).1 = Except.ok 0 ∧
            ((add_log (release (get_next_avaliable_slot new_logger_ns).2
                0) msg id).2).log.getD 0 zeroMsg = msg ∧
            ((add_log (release (get_next_avaliable_slot new_logger_ns).2
                0) msg id).2).log_id.getD 0 (id + 1) = id ∧
            ((add_log (release (get_next_avaliable_slot new_logger_ns).2
                0) msg id).2).log_type.getD 0 LoggingTypeNS.Marker =
              LoggingTypeNS.Log) :=
  ⟨by decide, by decide,
    c7_release_reuse new_logger_ns 0 (by decide) (by decide)⟩

/-- C8: `add_marker` with both arguments `None` succeeds when a free slot
exists and stores the fixed placeholder message ("Marker Place" padded
with zeros), identifier 0 and kind Marker at the acquired slot. -/
theorem c8_default_marker (l : LoggerNS) (i : Nat) (hwf : WF l)
    (h : findFirstFree l.free_slots = some i) :
    (add_marker l none none).1 = Except.ok i ∧
      ((add_marker l none none).2).log.getD i zeroMsg =
        defaultMarkerMessage ∧
      ((add_marker l none none).2).log_id.getD i 1 = 0 ∧
      ((add_marker l none none).2).log_type.getD i LoggingTypeNS.Error =
        LoggingTypeNS.Marker := by
  obtain ⟨hl1, hl2, hl3, hl4⟩ := hwf
  have hlt : i < l.free_slots.length := findFirstFree_lt_length _ _ h
  have e : add_marker l none none =
      (Except.ok i,
        ⟨l.log.set i defaultMarkerMessage, l.log_id.set i 0,
          l.log_type.set i LoggingTypeNS.Marker,
          l.free_slots.set i false⟩) := by
    simp [add_marker, get_next_avaliable_slot, h]
  rw [e]
  refine ⟨rfl, ?_, ?_, ?_⟩
  · exact getD_set_self l.log i defaultMarkerMessage zeroMsg (by omega)
  · exact getD_set_self l.log_id i 0 1 (by omega)
  · exact getD_set_self l.log_type i LoggingTypeNS.Marker
      LoggingTypeNS.Error (by omega)

/-- Witness for C8 at the fresh logger. -/
theorem c8_default_marker_witness :
    WF new_logger_ns ∧
      findFirstFree new_logger_ns.free_slots = some 0 ∧
      ((add_marker new_logger_ns none none).1 = Except.ok 0 ∧
        ((add_marker new_logger_ns none none).2).log.getD 0 zeroMsg =
          defaultMarkerMessage ∧
        ((add_marker new_logger_ns none none).2).log_id.getD 0 1 = 0 ∧
        ((add_marker new_logger_ns none none).2).log_type.getD 0
            LoggingTypeNS.Error = LoggingTypeNS.Marker) :=
  ⟨by decide, by decide,
    c8_default_marker new_logger_ns 0 (by decide) (by decide)⟩

end MiniLog
